import Mathlib

/-!
Shallow embedding of the authenticated API session layer of the tuitter
terminal client: RealAPI._request (src/tuitter/api_interface.py, lines
197-271) and RealAPI.try_restore_session (lines 541-668). The external
collaborators - auth_storage.load_tokens, auth.refresh_tokens,
auth_storage.save_tokens_full and the HTTP backend - are modelled as
deterministic oracles, matching the spec, which treats them as external
interfaces. Line numbers in comments refer to src/tuitter/api_interface.py.
-/

namespace Tuitter

/-- Python truthiness of an optional string: None and the empty string are
falsy, a nonempty string is truthy. Mirrors expressions such as the source
line 575, username equals found.get of username or None. -/
def truthy : Option String → Option String
  | some s => if s = "" then none else some s
  | none => none

/-- The tokens sub-dict of a credential blob: keys access_token and
refresh_token, each possibly absent. -/
structure TokensDict where
  access_token : Option String
  refresh_token : Option String
deriving DecidableEq

/-- The value stored under the tokens key of a blob: a dict, or a non-dict
value. Line 573 checks isinstance of dict before using it. -/
inductive TokensVal
  | tdict (t : TokensDict)
  | tnonDict
deriving DecidableEq

/-- A credential blob dict: username, an optional tokens entry, and an
optional top-level refresh_token key, the wrapperless shape. A field that
is none models an absent key. -/
structure BlobDict where
  username : Option String
  tokens : Option TokensVal
  refresh_token : Option String
deriving DecidableEq

/-- A parsed stored value: a dict, or some non-dict JSON value. -/
inductive PyVal
  | vdict (d : BlobDict)
  | vnonDict
deriving DecidableEq

/-- What load_tokens hands back when it does not raise: a falsy value, a
truthy string on which json.loads raises, a truthy string parsing to v, or
a truthy non-string value v. Lines 559-570. -/
inductive StoredVal
  | falsy
  | badStr
  | jsonStr (v : PyVal)
  | val (v : PyVal)
deriving DecidableEq

/-- What refresh_tokens returns when it does not raise: a falsy or
non-dict value, or a dict with optional access_token and refresh_token
keys. -/
inductive RefreshReturn
  | rfalsy
  | rdict (access_token : Option String) (refresh_token : Option String)
deriving DecidableEq

/-- The guard on line 602: new_tokens is truthy, a dict, and carries a
truthy access_token; returns that access token when usable. -/
def refreshUsable : RefreshReturn → Option String
  | .rfalsy => none
  | .rdict a _ => truthy a

/-- In-memory session state of RealAPI: the current bearer token, none
until set_token is first called, and the handle. -/
structure ApiState where
  token : Option String
  handle : String
deriving DecidableEq

/-- RealAPI.set_token, lines 176-186: records the token and updates the
session Authorization header; its internal logging cannot raise. -/
def set_token (s : ApiState) (t : String) : ApiState :=
  { s with token := some t }

/-- A concrete network send of the logical request: upper-cased method,
url, query params, JSON body, and the bearer token carried by the session
headers at send time. -/
structure SendReq where
  method : String
  url : String
  params : List (String × String)
  body : Option String
  bearer : Option String
deriving DecidableEq

/-- Observable events in execution order: the credential-store load, the
validation probe against the me endpoint, a refresh_tokens call, a
set_token call, a save_tokens_full call, and the k-th network send of the
logical request. -/
inductive Ev
  | evLoad
  | evValidate (token : Option String) (handle : String)
  | evRefresh (rt : String)
  | evSetToken (t : String)
  | evSave (nt : RefreshReturn) (username : Option String)
  | evSend (k : Nat) (r : SendReq)
deriving DecidableEq

/-- External collaborators as deterministic oracles. load, validate and
refresh may raise, modelled as Except.error. save_tokens_full may raise
too, but the source swallows that exception with no control-flow effect,
line 610, so only a flag records the possibility. -/
structure Collab where
  load : Except Unit StoredVal
  validate : Option String → String → Except Unit Nat
  refresh : String → Except Unit RefreshReturn
  saveRaises : Bool

/-- requests raise_for_status raises exactly for status codes from 400 to
599; the ok property of a response is its negation. -/
def httpRaises (s : Nat) : Bool := decide (400 ≤ s) && decide (s < 600)

/-- The status codes the source treats as an auth failure in _request,
lines 222 and 255. -/
def isAuthStatus (s : Nat) : Bool := s == 400 || s == 401 || s == 403

/-- Line 577: the refresh token used by the full-blob branch is the tokens
entry when truthy, else the top-level entry, possibly falsy. -/
def effRefresh (tokRT topRT : Option String) : Option String :=
  match truthy tokRT with
  | some r => some r
  | none => topRT

/-- Lines 587-588 and 633-634 and 657-658: the handle after the
conditional rebind to a truthy username. -/
def handleAfterBind (username : Option String) (h : String) : String :=
  match username with
  | some u => u
  | none => h

/-- Lines 640-664 of try_restore_session: the refresh-only branch, reached
when the blob has no dict under the tokens key or that dict holds no
truthy access token. The branch fires only when the top-level key
refresh_token is present and truthy. evs holds the events accumulated so
far. -/
def refreshOnlyBranch (c : Collab) (s : ApiState) (evs : List Ev) (d : BlobDict) :
    Bool × ApiState × List Ev :=
  match truthy d.refresh_token with
  | some rt =>
    let username := truthy d.username
    let evs1 := evs ++ [Ev.evRefresh rt]
    match c.refresh rt with
    | .ok nt =>
      match refreshUsable nt with
      | some na =>
        let s1 := set_token s na
        let s2 : ApiState := { s1 with handle := handleAfterBind username s1.handle }
        (true, s2, evs1 ++ [Ev.evSetToken na, Ev.evSave nt username])
      | none => (false, s, evs1)
    | .error _ => (false, s, evs1)
  | none => (false, s, evs)

/-- Lines 581-638: the full-blob branch taken when a truthy access token a
is present. The token is installed provisionally and the handle rebound,
lines 583-588, then the me probe runs; on status 401 with a truthy refresh
token the refresh fallback runs, lines 596-615; any other error status
returns False, line 617; if the probe raises, refresh is attempted as a
fallback, lines 618-638. Every path of this branch returns. -/
def fullBlobBranch (c : Collab) (s : ApiState) (evs : List Ev)
    (a : String) (refreshVal : Option String) (username : Option String) :
    Bool × ApiState × List Ev :=
  let s1 := set_token s a
  let s2 : ApiState := { s1 with handle := handleAfterBind username s1.handle }
  let evs1 := evs ++ [Ev.evSetToken a]
  let evs2 := evs1 ++ [Ev.evValidate s2.token s2.handle]
  match c.validate s2.token s2.handle with
  | .ok status =>
    if httpRaises status then
      if status = 401 then
        match truthy refreshVal with
        | some rt =>
          let evs3 := evs2 ++ [Ev.evRefresh rt]
          match c.refresh rt with
          | .ok nt =>
            match refreshUsable nt with
            | some na =>
              (true, set_token s2 na, evs3 ++ [Ev.evSetToken na, Ev.evSave nt username])
            | none => (false, s2, evs3)
          | .error _ => (false, s2, evs3)
        | none => (false, s2, evs2)
      else (false, s2, evs2)
    else (true, s2, evs2)
  | .error _ =>
    match truthy refreshVal with
    | some rt =>
      let evs3 := evs2 ++ [Ev.evRefresh rt]
      match c.refresh rt with
      | .ok nt =>
        match refreshUsable nt with
        | some na =>
          let s3 := set_token s2 na
          let s4 : ApiState := { s3 with handle := handleAfterBind username s3.handle }
          (true, s4, evs3 ++ [Ev.evSetToken na, Ev.evSave nt username])
        | none => (false, s2, evs3)
      | .error _ => (false, s2, evs3)
    | none => (false, s2, evs2)

/-- Lines 572-664 applied to the parsed stored value: dispatch between the
full-blob branch and the refresh-only branch. With a tokens dict whose
access token is falsy, the full branch body is skipped, line 581, and
control falls through to the refresh-only branch on the same dict. -/
def restoreDict (c : Collab) (s : ApiState) (evs : List Ev) (v : PyVal) :
    Bool × ApiState × List Ev :=
  match v with
  | .vnonDict => (false, s, evs)
  | .vdict d =>
    match d.tokens with
    | some (.tdict tokens) =>
      match truthy tokens.access_token with
      | some a =>
        fullBlobBranch c s evs a (effRefresh tokens.refresh_token d.refresh_token)
          (truthy d.username)
      | none => refreshOnlyBranch c s evs d
    | _ => refreshOnlyBranch c s evs d

/-- The body of try_restore_session, lines 551-664, without the outer
exception handler. Except.error models an exception escaping to that
handler, which only the load_tokens call can produce: every other
collaborator call sits inside its own handler. -/
def restoreAttempt (c : Collab) (s : ApiState) :
    Except (ApiState × List Ev) (Bool × ApiState × List Ev) :=
  match c.load with
  | .error _ => .error (s, [Ev.evLoad])
  | .ok found =>
    match found with
    | .falsy => .ok (false, s, [Ev.evLoad])
    | .badStr => .ok (false, s, [Ev.evLoad])
    | .jsonStr v => .ok (restoreDict c s [Ev.evLoad] v)
    | .val v => .ok (restoreDict c s [Ev.evLoad] v)

/-- RealAPI.try_restore_session, lines 541-668: the body together with the
outer handler, lines 665-668, that turns any escaped exception into a
False return. -/
def try_restore_session (c : Collab) (s : ApiState) : Bool × ApiState × List Ev :=
  match restoreAttempt c s with
  | .ok r => r
  | .error (s1, evs) => (false, s1, evs)

/-- The backend as seen by one logical request: the restore collaborators
plus the status code answered to the k-th network send of the request. -/
structure Backend where
  collab : Collab
  respond : Nat → Nat

/-- Outcome of _request: the decoded JSON body of the k-th send, or a
requests HTTPError carrying the given status. -/
inductive ReqResult
  | ok (k : Nat)
  | httpError (status : Nat)
deriving DecidableEq

/-- The Python str upper method, applied to the request method on lines
210 and 235. -/
def pyUpper (s : String) : String := String.mk (s.toList.map Char.toUpper)

/-- params.setdefault on line 206: insert the pair only when the key is
absent. -/
def setDefaultParam (ps : List (String × String)) (k v : String) : List (String × String) :=
  if ps.any (fun kv => kv.1 = k) then ps else ps ++ [(k, v)]

/-- path.lstrip of slashes on line 207. -/
def lstripSlashes (p : String) : String :=
  String.mk (p.toList.dropWhile (fun ch => ch = '/'))

/-- The JSON body actually sent, lines 211-219: the GET dispatch carries no
body, every other verb passes the json payload. -/
def sentBody (m : String) (body : Option String) : Option String :=
  if m = "GET" then none else body

/-- The verb of the inline re-issue, lines 235-238: session get for GET,
session post for everything else. -/
def retryMethod (m : String) : String := if m = "GET" then "GET" else "POST"

/-- Builds the concrete send of a request with the given upper-cased verb,
url, query params, payload and current bearer token. -/
def mkReq (m url : String) (params : List (String × String)) (body : Option String)
    (bearer : Option String) : SendReq :=
  { method := m, url := url, params := params, body := sentBody m body, bearer := bearer }

/-- RealAPI._request called with retry equal False: one send; an error
status is re-raised because both auth-retry branches are guarded by the
retry flag, lines 222 and 255. k numbers the sends of the logical
request. -/
def requestNoRetry (be : Backend) (baseUrl : String) (st : ApiState) (k : Nat)
    (method path : String) (params0 : List (String × String)) (body : Option String) :
    ReqResult × ApiState × Nat × List Ev :=
  let params := setDefaultParam params0 "handle" st.handle
  let url := baseUrl ++ "/" ++ lstripSlashes path
  let m := pyUpper method
  let req : SendReq := mkReq m url params body st.token
  let status := be.respond k
  if httpRaises status then (ReqResult.httpError status, st, k + 1, [Ev.evSend k req])
  else (ReqResult.ok k, st, k + 1, [Ev.evSend k req])

/-- RealAPI._request called with retry equal True, lines 197-271; this is
execute in the spec. On an auth status, line 222, restore runs once and,
when it succeeds, the request is re-issued inline: a GET through session
get and every other verb through session post, lines 235-238. If the
response held after that, still an auth status, raises on line 244, the
handler on line 255 sees the retry flag still true, restores again and
re-issues through a recursive call with retry False, line 265; when
restore fails the original error is re-raised, line 271. -/
def request (be : Backend) (baseUrl : String) (st : ApiState) (k : Nat)
    (method path : String) (params0 : List (String × String)) (body : Option String) :
    ReqResult × ApiState × Nat × List Ev :=
  let params := setDefaultParam params0 "handle" st.handle
  let url := baseUrl ++ "/" ++ lstripSlashes path
  let m := pyUpper method
  let req1 : SendReq := mkReq m url params body st.token
  let status1 := be.respond k
  if isAuthStatus status1 then
    match try_restore_session be.collab st with
    | (true, st1, evsR) =>
      let req2 : SendReq := mkReq (retryMethod m) url params body st1.token
      let status2 := be.respond (k + 1)
      let evs2 := Ev.evSend k req1 :: evsR ++ [Ev.evSend (k + 1) req2]
      if httpRaises status2 then
        if isAuthStatus status2 then
          match try_restore_session be.collab st1 with
          | (true, st2, evsR2) =>
            let r4 := requestNoRetry be baseUrl st2 (k + 2) method path params body
            (r4.1, r4.2.1, r4.2.2.1, evs2 ++ evsR2 ++ r4.2.2.2)
          | (false, st2, evsR2) => (ReqResult.httpError status2, st2, k + 2, evs2 ++ evsR2)
        else (ReqResult.httpError status2, st1, k + 2, evs2)
      else (ReqResult.ok (k + 1), st1, k + 2, evs2)
    | (false, st1, evsR) =>
      let evs2 := Ev.evSend k req1 :: evsR
      match try_restore_session be.collab st1 with
      | (true, st2, evsR2) =>
        let r4 := requestNoRetry be baseUrl st2 (k + 1) method path params body
        (r4.1, r4.2.1, r4.2.2.1, evs2 ++ evsR2 ++ r4.2.2.2)
      | (false, st2, evsR2) => (ReqResult.httpError status1, st2, k + 1, evs2 ++ evsR2)
  else
    if httpRaises status1 then (ReqResult.httpError status1, st, k + 1, [Ev.evSend k req1])
    else (ReqResult.ok k, st, k + 1, [Ev.evSend k req1])

/-- The methods of the network sends of a trace, in order. -/
def sendMethods (evs : List Ev) : List String :=
  evs.filterMap fun e =>
    match e with
    | .evSend _ r => some r.method
    | _ => none

/-- Number of network sends of the logical request in a trace. -/
def countSends (evs : List Ev) : Nat := (sendMethods evs).length

/-- Whether a trace contains a save_tokens_full call. -/
def hasSave (evs : List Ev) : Bool :=
  evs.any fun e =>
    match e with
    | .evSave _ _ => true
    | _ => false

/-- Whether a trace contains a refresh_tokens call. -/
def hasRefreshEv (evs : List Ev) : Bool :=
  evs.any fun e =>
    match e with
    | .evRefresh _ => true
    | _ => false

/-- A full-pair credential blob packaged with its collaborators: the
stored value is a dict with a username, a tokens dict holding the access
token a and the optional refresh token rto, and a top-level refresh_token
entry tr. -/
def fullCollab (V : Option String → String → Except Unit Nat)
    (R : String → Except Unit RefreshReturn) (sr : Bool)
    (u : Option String) (a : String) (rto tr : Option String) : Collab :=
  { load := Except.ok (StoredVal.val (PyVal.vdict
      { username := u
        tokens := some (TokensVal.tdict { access_token := some a, refresh_token := rto })
        refresh_token := tr }))
    validate := V
    refresh := R
    saveRaises := sr }

/-- The default state of a fresh RealAPI: no token and the fallback handle
from line 162. -/
def s0 : ApiState := { token := none, handle := "yourname" }

/-- A stored full-pair blob for the user alice. -/
def fullBlobStored : StoredVal :=
  StoredVal.val (PyVal.vdict
    { username := some "alice"
      tokens := some (TokensVal.tdict { access_token := some "acc", refresh_token := some "ref" })
      refresh_token := none })

/-- Collaborators under which restore succeeds through validation alone:
the stored blob is a full pair and the me probe answers 200. -/
def collabValidateOK : Collab :=
  { load := Except.ok fullBlobStored
    validate := fun _ _ => Except.ok 200
    refresh := fun _ => Except.error ()
    saveRaises := false }

/-- A backend that answers 401 to every send of the logical request while
restore itself succeeds through validation. -/
def backend401 : Backend := { collab := collabValidateOK, respond := fun _ => 401 }

/-- A refresh-only blob in the wrapped shape: username together with a
tokens dict holding only a refresh token. -/
def wrappedRefreshOnlyStored : StoredVal :=
  StoredVal.val (PyVal.vdict
    { username := some "alice"
      tokens := some (TokensVal.tdict { access_token := none, refresh_token := some "ref" })
      refresh_token := none })

/-- Collaborators holding the wrapped refresh-only blob, with a refresh
endpoint that would succeed. -/
def collabWrappedRefreshOnly : Collab :=
  { load := Except.ok wrappedRefreshOnlyStored
    validate := fun _ _ => Except.ok 200
    refresh := fun _ => Except.ok (RefreshReturn.rdict (some "newacc") (some "newref"))
    saveRaises := false }

/-- A backend whose first answer to the logical request is 401 and whose
second is 200, with restore succeeding through validation. -/
def backendPatch : Backend :=
  { collab := collabValidateOK, respond := fun k => if k = 0 then 401 else 200 }

/-- Collaborators for the C4 counterexample: a full-pair blob whose me
probe answers 403 while the refresh endpoint would succeed. -/
def collabC4x : Collab :=
  { load := Except.ok fullBlobStored
    validate := fun _ _ => Except.ok 403
    refresh := fun _ => Except.ok (RefreshReturn.rdict (some "newacc") (some "newref"))
    saveRaises := false }

/-- Collaborators for C10: a full-pair blob whose me probe answers 401 and
whose refresh call raises. -/
def collabC10 : Collab :=
  { load := Except.ok (StoredVal.val (PyVal.vdict
      { username := some "alice"
        tokens := some (TokensVal.tdict
          { access_token := some "stale", refresh_token := some "ref" })
        refresh_token := none }))
    validate := fun _ _ => Except.ok 401
    refresh := fun _ => Except.error ()
    saveRaises := false }

/-- Collaborators whose load finds nothing. -/
def collabNoBlob : Collab :=
  { load := Except.ok StoredVal.falsy
    validate := fun _ _ => Except.ok 200
    refresh := fun _ => Except.error ()
    saveRaises := false }

/-- Collaborators for the C5 witness: full blob, validation answers 401,
refresh succeeds. -/
def collabC5w : Collab :=
  fullCollab (fun _ _ => Except.ok 401)
    (fun _ => Except.ok (RefreshReturn.rdict (some "newacc") (some "newref")))
    false (some "alice") "acc" (some "ref") none

/-- Backend for the C5 witness: first send answered 401, second 200. -/
def beC5w : Backend := { collab := collabC5w, respond := fun k => if k = 0 then 401 else 200 }

/-- C1. The single retry invariant fails on the code: with every send of
the logical request answered 401 and restore succeeding each time, the
inline retry leaves the retry flag true, so the HTTPError handler on line
255 restores again and issues a third network call through the recursive
call on line 265. The claim and the docstring of _request allow at most
two. -/
theorem C1_third_network_call :
    countSends (request backend401 "https://api" s0 0 "GET" "/timeline" [] none).2.2.2 = 3 := by
  decide

/-- C2. The refresh-only path fails on the wrapped blob shape: the full
branch is skipped for lack of an access token, and the refresh-only guard
on line 641 looks for refresh_token only at top level, so restore returns
False having called nothing after the load, even though the refresh
endpoint would have succeeded. -/
theorem C2_wrapped_refresh_only_not_accepted :
    try_restore_session collabWrappedRefreshOnly s0 = (false, s0, [Ev.evLoad]) := by
  decide

/-- C3. The retry is not identical for PATCH: the inline re-issue on lines
235-238 sends through session post for every non-GET verb, so a PATCH that
drew a 401 and a successful restore is retried as a POST. -/
theorem C3_patch_retried_as_post :
    sendMethods (request backendPatch "https://api" s0 0 "PATCH" "/settings" []
      (some "payload")).2.2.2 = ["PATCH", "POST"] := by
  decide

/-- C4 counterexample. The claim says a validation failure with any of
400, 401 or 403 triggers the refresh fallback; but the code, line 596,
compares the validation status against 401 only, so on a 403 restore
returns False and never calls refresh, although a refresh token was
available and the refresh endpoint would have succeeded. -/
theorem C4_refresh_not_attempted_on_403 :
    (try_restore_session collabC4x s0).1 = false ∧
      hasRefreshEv (try_restore_session collabC4x s0).2.2 = false := by
  decide

/-- C10. No rollback on failed restore: starting from the fresh state,
with a full-pair blob whose access token is rejected by validation and
whose refresh raises, restore returns false yet the stale access token
stays installed and the handle stays rebound to the username of the blob,
so a false return does not leave TokenState unchanged. -/
theorem C10_no_rollback_on_failed_restore :
    try_restore_session collabC10 s0
      = (false, { token := some "stale", handle := "alice" },
          [Ev.evLoad, Ev.evSetToken "stale", Ev.evValidate (some "stale") "alice",
           Ev.evRefresh "ref"]) := by
  decide

/-- Truthiness of a present nonempty string. -/
theorem truthy_some_ne (a : String) (ha : a ≠ "") : truthy (some a) = some a := by
  simp [truthy, ha]

/-- Rebinding the handle to the same optional username twice is the same
as rebinding once. -/
theorem handle_bind_idem (u : Option String) (h : String) :
    handleAfterBind u (handleAfterBind u h) = handleAfterBind u h := by
  cases u <;> rfl

/-- C8. No-blob fast path: when the credential store load yields no blob,
restore returns false at once and the only event of the call is the store
load itself, hence no validation probe, no refresh call, and no network
send. -/
theorem C8_no_blob_fast_path (c : Collab) (s : ApiState)
    (h : c.load = Except.ok StoredVal.falsy) :
    try_restore_session c s = (false, s, [Ev.evLoad]) := by
  unfold try_restore_session restoreAttempt
  rw [h]

/-- Witness for C8 at a concrete input. -/
theorem C8_no_blob_fast_path_witness :
    try_restore_session collabNoBlob s0 = (false, s0, [Ev.evLoad]) :=
  C8_no_blob_fast_path collabNoBlob s0 rfl

/-- C9. Totality of restore: for every stored value and every behaviour of
the collaborators, raising included, try_restore_session yields a boolean
result: either its body completed normally with that result, or the body
raised and the outer handler of lines 665-668 turned the exception into a
false return. No exception propagates to the caller. -/
theorem C9_restore_total (c : Collab) (s : ApiState) :
    ∃ b s1 evs, try_restore_session c s = (b, s1, evs) ∧
      (restoreAttempt c s = Except.ok (b, s1, evs) ∨
        (b = false ∧ restoreAttempt c s = Except.error (s1, evs))) := by
  rcases h : restoreAttempt c s with ⟨s1, evs⟩ | ⟨b, s1, evs⟩
  · exact ⟨false, s1, evs, by unfold try_restore_session; rw [h], Or.inr ⟨rfl, rfl⟩⟩
  · exact ⟨b, s1, evs, by unfold try_restore_session; rw [h], Or.inl rfl⟩

/-- C7. Restore idempotence: with a persisted full blob whose access token
the validation endpoint accepts, restore returns true, and calling it
again from the resulting state returns true again with the same state and
the same events, in particular with no refresh call in the second
invocation. -/
theorem C7_restore_idempotence
    (V : Option String → String → Except Unit Nat) (R : String → Except Unit RefreshReturn)
    (sr : Bool) (u rto tr : Option String) (a : String) (s : ApiState) (vst : Nat)
    (ha : a ≠ "")
    (hV : V (some a) (handleAfterBind (truthy u) s.handle) = Except.ok vst)
    (hOk : httpRaises vst = false) :
    ∃ s1 E, try_restore_session (fullCollab V R sr u a rto tr) s = (true, s1, E) ∧
      try_restore_session (fullCollab V R sr u a rto tr) s1 = (true, s1, E) ∧
      hasRefreshEv E = false := by
  refine ⟨{ token := some a, handle := handleAfterBind (truthy u) s.handle },
    [Ev.evLoad, Ev.evSetToken a,
     Ev.evValidate (some a) (handleAfterBind (truthy u) s.handle)], ?_, ?_, ?_⟩
  · unfold try_restore_session restoreAttempt fullCollab restoreDict fullBlobBranch
    simp only [truthy_some_ne a ha, set_token]
    rw [hV]
    simp [hOk]
  · unfold try_restore_session restoreAttempt fullCollab restoreDict fullBlobBranch
    simp only [truthy_some_ne a ha, set_token, handle_bind_idem]
    rw [hV]
    simp [hOk]
  · simp [hasRefreshEv]

/-- Witness for C7 at a concrete input. -/
theorem C7_restore_idempotence_witness :
    ∃ s1 E,
      try_restore_session (fullCollab (fun _ _ => Except.ok 200) (fun _ => Except.error ())
        false (some "alice") "acc" (some "ref") none) s0 = (true, s1, E) ∧
      try_restore_session (fullCollab (fun _ _ => Except.ok 200) (fun _ => Except.error ())
        false (some "alice") "acc" (some "ref") none) s1 = (true, s1, E) ∧
      hasRefreshEv E = false :=
  C7_restore_idempotence (fun _ _ => Except.ok 200) (fun _ => Except.error ()) false
    (some "alice") (some "ref") none "acc" s0 200 (by decide) rfl (by decide)

/-- C4 amended. For a persisted full-pair blob with a truthy refresh token
available, the refresh fallback of restore triggers only when the
validation call answers exactly 401: in that case, on a usable refresh
result the new pair is persisted, the new access token installed and true
returned, while a raising or unusable refresh yields false; when
validation fails with any other status, 400 and 403 included, restore
returns false without attempting any refresh. -/
theorem C4_refresh_fallback_only_on_401
    (V : Option String → String → Except Unit Nat) (R : String → Except Unit RefreshReturn)
    (sr : Bool) (u rto tr : Option String) (a rt : String) (s : ApiState) (vst : Nat)
    (ha : a ≠ "")
    (hrt : truthy (effRefresh rto tr) = some rt)
    (hV : V (some a) (handleAfterBind (truthy u) s.handle) = Except.ok vst)
    (hReject : httpRaises vst = true) :
    (vst = 401 →
      (∀ nt na, R rt = Except.ok nt → refreshUsable nt = some na →
        try_restore_session (fullCollab V R sr u a rto tr) s
          = (true, { token := some na, handle := handleAfterBind (truthy u) s.handle },
              [Ev.evLoad, Ev.evSetToken a,
               Ev.evValidate (some a) (handleAfterBind (truthy u) s.handle),
               Ev.evRefresh rt, Ev.evSetToken na, Ev.evSave nt (truthy u)])) ∧
      (R rt = Except.error () →
        (try_restore_session (fullCollab V R sr u a rto tr) s).1 = false) ∧
      (∀ nt, R rt = Except.ok nt → refreshUsable nt = none →
        (try_restore_session (fullCollab V R sr u a rto tr) s).1 = false)) ∧
    (vst ≠ 401 →
      (try_restore_session (fullCollab V R sr u a rto tr) s).1 = false ∧
      hasRefreshEv (try_restore_session (fullCollab V R sr u a rto tr) s).2.2 = false) := by
  unfold try_restore_session restoreAttempt fullCollab restoreDict fullBlobBranch
  simp only [truthy_some_ne a ha, set_token]
  rw [hV]
  simp only [hReject]
  constructor
  · intro h401
    subst h401
    simp only [if_pos rfl, hrt, if_true]
    refine ⟨?_, ?_, ?_⟩
    · intro nt na hR hUse
      simp [hR, hUse]
    · intro hR
      simp [hR]
    · intro nt hR hUse
      simp [hR, hUse]
  · intro hne
    rw [if_neg hne]
    constructor
    · rfl
    · simp [hasRefreshEv]

/-- Witness for the amended C4 at a concrete input with validation status
403. -/
theorem C4_refresh_fallback_only_on_401_witness :
    (try_restore_session (fullCollab (fun _ _ => Except.ok 403)
        (fun _ => Except.ok (RefreshReturn.rdict (some "newacc") (some "newref")))
        false (some "alice") "acc" (some "ref") none) s0).1 = false ∧
      hasRefreshEv (try_restore_session (fullCollab (fun _ _ => Except.ok 403)
        (fun _ => Except.ok (RefreshReturn.rdict (some "newacc") (some "newref")))
        false (some "alice") "acc" (some "ref") none) s0).2.2 = false :=
  (C4_refresh_fallback_only_on_401 (fun _ _ => Except.ok 403)
    (fun _ => Except.ok (RefreshReturn.rdict (some "newacc") (some "newref")))
    false (some "alice") (some "ref") none "acc" "ref" s0 403
    (by decide) (by decide) rfl (by decide)).2 (by decide)

/-- When the persisted blob is a full pair, every validation answer is a
rejecting status and every refresh outcome is unusable, restore returns
false and its event trace holds no save_tokens_full call, from any
starting state. -/
theorem restore_rejected_no_save
    (V : Option String → String → Except Unit Nat) (R : String → Except Unit RefreshReturn)
    (sr : Bool) (u rto tr : Option String) (a : String)
    (ha : a ≠ "")
    (hV : ∀ tok hd st1, V tok hd = Except.ok st1 → httpRaises st1 = true)
    (hR : ∀ rt nt, R rt = Except.ok nt → refreshUsable nt = none)
    (s : ApiState) :
    (try_restore_session (fullCollab V R sr u a rto tr) s).1 = false ∧
      hasSave (try_restore_session (fullCollab V R sr u a rto tr) s).2.2 = false := by
  unfold try_restore_session restoreAttempt fullCollab restoreDict fullBlobBranch
  simp only [truthy_some_ne a ha, set_token]
  cases hv : V (some a) (handleAfterBind (truthy u) s.handle) with
  | ok vst =>
    simp only [hV _ _ _ hv, if_true]
    by_cases h401 : vst = 401
    · subst h401
      simp only [if_pos rfl]
      cases hrt : truthy (effRefresh rto tr) with
      | none => simp [hrt, hasSave]
      | some rt =>
        cases hr : R rt with
        | error e => simp [hrt, hr, hasSave]
        | ok nt => simp [hrt, hr, hR rt nt hr, hasSave]
    · rw [if_neg h401]
      simp [hasSave]
  | error e =>
    cases hrt : truthy (effRefresh rto tr) with
    | none => simp [hrt, hasSave]
    | some rt =>
      cases hr : R rt with
      | error e2 => simp [hrt, hr, hasSave]
      | ok nt => simp [hrt, hr, hR rt nt hr, hasSave]

/-- C6. Failed-session atomicity toward the store: with a persisted full
pair whose validation is rejected and whose refresh never yields a usable
token, an authenticated request answered with an auth-failure status
surfaces that HTTPError to the caller, and the whole call hands no value
to save_tokens_full. -/
theorem C6_both_tokens_invalid_no_write
    (V : Option String → String → Except Unit Nat) (R : String → Except Unit RefreshReturn)
    (sr : Bool) (u rto tr : Option String) (a : String)
    (respond : Nat → Nat) (baseUrl : String) (st : ApiState) (k : Nat)
    (method path : String) (params0 : List (String × String)) (body : Option String)
    (ha : a ≠ "")
    (hV : ∀ tok hd st1, V tok hd = Except.ok st1 → httpRaises st1 = true)
    (hR : ∀ rt nt, R rt = Except.ok nt → refreshUsable nt = none)
    (hAuth : isAuthStatus (respond k) = true) :
    ∃ st2 evs,
      request { collab := fullCollab V R sr u a rto tr, respond := respond } baseUrl st k
          method path params0 body
        = (ReqResult.httpError (respond k), st2, k + 1, evs) ∧ hasSave evs = false := by
  rcases h1 : try_restore_session (fullCollab V R sr u a rto tr) st with ⟨b1, st1, evsR1⟩
  have L1 := restore_rejected_no_save V R sr u rto tr a ha hV hR st
  rw [h1] at L1
  obtain ⟨hb1, hs1⟩ := L1
  subst hb1
  rcases h2 : try_restore_session (fullCollab V R sr u a rto tr) st1 with ⟨b2, st2, evsR2⟩
  have L2 := restore_rejected_no_save V R sr u rto tr a ha hV hR st1
  rw [h2] at L2
  obtain ⟨hb2, hs2⟩ := L2
  subst hb2
  simp only [hasSave] at hs1 hs2
  refine ⟨st2,
    Ev.evSend k (mkReq (pyUpper method) (baseUrl ++ "/" ++ lstripSlashes path)
      (setDefaultParam params0 "handle" st.handle) body st.token) :: evsR1 ++ evsR2, ?_, ?_⟩
  · simp [request, hAuth, h1, h2]
  · simp [hasSave, hs1, hs2]

/-- Witness for C6 at a concrete input: both tokens invalid, the timeline
request draws a 401 and surfaces it, nothing is saved. -/
theorem C6_both_tokens_invalid_no_write_witness :
    ∃ st2 evs,
      request (Backend.mk (fullCollab (fun _ _ => Except.ok 401) (fun _ => Except.error ())
          false (some "alice") "acc" (some "ref") none) (fun _ => 401))
          "https://api" s0 0 "GET" "/timeline" [] none
        = (ReqResult.httpError 401, st2, 0 + 1, evs) ∧ hasSave evs = false :=
  C6_both_tokens_invalid_no_write (fun _ _ => Except.ok 401) (fun _ => Except.error ())
    false (some "alice") (some "ref") none "acc" (fun _ => 401) "https://api" s0 0
    "GET" "/timeline" [] none (by decide)
    (by intro tok hd st1 h; injection h with h; subst h; decide)
    (by intro rt nt h; exact absurd h (by simp))
    (by decide)

/-- A trace without save events contains no save event. -/
theorem evSave_not_mem_of_hasSave_false (evs : List Ev) (hpre : hasSave evs = false)
    (nt : RefreshReturn) (u : Option String) : Ev.evSave nt u ∉ evs := by
  intro hmem
  have ht : hasSave evs = true := by
    simp only [hasSave]
    exact List.any_eq_true.mpr ⟨_, hmem, rfl⟩
  rw [hpre] at ht
  exact Bool.false_ne_true ht

/-- Structure of the refresh-only branch around a save event: when the
branch result carries a save of nt in its trace, the branch returned
true, the token installed right before that save is the token of the
final state, and the trace ends with the install immediately followed by
the save. -/
theorem save_shape_refreshOnly (c : Collab) (s : ApiState) (evs : List Ev) (d : BlobDict)
    (nt : RefreshReturn) (u : Option String) (b : Bool) (s2 : ApiState) (evs2 : List Ev)
    (hpre : hasSave evs = false)
    (he : refreshOnlyBranch c s evs d = (b, s2, evs2))
    (h : Ev.evSave nt u ∈ evs2) :
    b = true ∧ ∃ na pre, s2.token = some na ∧
      evs2 = pre ++ [Ev.evSetToken na, Ev.evSave nt u] := by
  simp only [refreshOnlyBranch, set_token] at he
  split at he
  · split at he
    · split at he
      · simp only [Prod.mk.injEq] at he
        obtain ⟨hb, hs2, hevs⟩ := he
        subst hb; subst hs2; subst hevs
        simp at h
        rcases h with h | ⟨hnt, hu⟩
        · exact absurd h (evSave_not_mem_of_hasSave_false evs hpre nt u)
        · subst hnt; subst hu
          exact ⟨rfl, _, _, rfl, rfl⟩
      · simp only [Prod.mk.injEq] at he
        obtain ⟨hb, hs2, hevs⟩ := he
        subst hb; subst hs2; subst hevs
        simp at h
        exact absurd h (evSave_not_mem_of_hasSave_false evs hpre nt u)
    · simp only [Prod.mk.injEq] at he
      obtain ⟨hb, hs2, hevs⟩ := he
      subst hb; subst hs2; subst hevs
      simp at h
      exact absurd h (evSave_not_mem_of_hasSave_false evs hpre nt u)
  · simp only [Prod.mk.injEq] at he
    obtain ⟨hb, hs2, hevs⟩ := he
    subst hb; subst hs2; subst hevs
    exact absurd h (evSave_not_mem_of_hasSave_false evs hpre nt u)

/-- Structure of the full-blob branch around a save event, analogous to
the refresh-only case. -/
theorem save_shape_fullBlob (c : Collab) (s : ApiState) (evs : List Ev)
    (a : String) (rv uo : Option String) (nt : RefreshReturn) (u : Option String)
    (b : Bool) (s2 : ApiState) (evs2 : List Ev)
    (hpre : hasSave evs = false)
    (he : fullBlobBranch c s evs a rv uo = (b, s2, evs2))
    (h : Ev.evSave nt u ∈ evs2) :
    b = true ∧ ∃ na pre, s2.token = some na ∧
      evs2 = pre ++ [Ev.evSetToken na, Ev.evSave nt u] := by
  simp only [fullBlobBranch, set_token] at he
  split at he
  · split at he
    · split at he
      · split at he
        · split at he
          · split at he
            · simp only [Prod.mk.injEq] at he
              obtain ⟨hb, hs2, hevs⟩ := he
              subst hb; subst hs2; subst hevs
              simp at h
              rcases h with h | ⟨hnt, hu⟩
              · exact absurd h (evSave_not_mem_of_hasSave_false evs hpre nt u)
              · subst hnt; subst hu
                exact ⟨rfl, _, _, rfl, rfl⟩
            · simp only [Prod.mk.injEq] at he
              obtain ⟨hb, hs2, hevs⟩ := he
              subst hb; subst hs2; subst hevs
              simp at h
              exact absurd h (evSave_not_mem_of_hasSave_false evs hpre nt u)
          · simp only [Prod.mk.injEq] at he
            obtain ⟨hb, hs2, hevs⟩ := he
            subst hb; subst hs2; subst hevs
            simp at h
            exact absurd h (evSave_not_mem_of_hasSave_false evs hpre nt u)
        · simp only [Prod.mk.injEq] at he
          obtain ⟨hb, hs2, hevs⟩ := he
          subst hb; subst hs2; subst hevs
          simp at h
          exact absurd h (evSave_not_mem_of_hasSave_false evs hpre nt u)
      · simp only [Prod.mk.injEq] at he
        obtain ⟨hb, hs2, hevs⟩ := he
        subst hb; subst hs2; subst hevs
        simp at h
        exact absurd h (evSave_not_mem_of_hasSave_false evs hpre nt u)
    · simp only [Prod.mk.injEq] at he
      obtain ⟨hb, hs2, hevs⟩ := he
      subst hb; subst hs2; subst hevs
      simp at h
      exact absurd h (evSave_not_mem_of_hasSave_false evs hpre nt u)
  · split at he
    · split at he
      · split at he
        · simp only [Prod.mk.injEq] at he
          obtain ⟨hb, hs2, hevs⟩ := he
          subst hb; subst hs2; subst hevs
          simp at h
          rcases h with h | ⟨hnt, hu⟩
          · exact absurd h (evSave_not_mem_of_hasSave_false evs hpre nt u)
          · subst hnt; subst hu
            exact ⟨rfl, _, _, rfl, rfl⟩
        · simp only [Prod.mk.injEq] at he
          obtain ⟨hb, hs2, hevs⟩ := he
          subst hb; subst hs2; subst hevs
          simp at h
          exact absurd h (evSave_not_mem_of_hasSave_false evs hpre nt u)
      · simp only [Prod.mk.injEq] at he
        obtain ⟨hb, hs2, hevs⟩ := he
        subst hb; subst hs2; subst hevs
        simp at h
        exact absurd h (evSave_not_mem_of_hasSave_false evs hpre nt u)
    · simp only [Prod.mk.injEq] at he
      obtain ⟨hb, hs2, hevs⟩ := he
      subst hb; subst hs2; subst hevs
      simp at h
      exact absurd h (evSave_not_mem_of_hasSave_false evs hpre nt u)

/-- Structure of the dict dispatch around a save event. -/
theorem save_shape_restoreDict (c : Collab) (s : ApiState) (evs : List Ev) (v : PyVal)
    (nt : RefreshReturn) (u : Option String) (b : Bool) (s2 : ApiState) (evs2 : List Ev)
    (hpre : hasSave evs = false)
    (he : restoreDict c s evs v = (b, s2, evs2))
    (h : Ev.evSave nt u ∈ evs2) :
    b = true ∧ ∃ na pre, s2.token = some na ∧
      evs2 = pre ++ [Ev.evSetToken na, Ev.evSave nt u] := by
  cases v with
  | vnonDict =>
    simp only [restoreDict, Prod.mk.injEq] at he
    obtain ⟨hb, hs2, hevs⟩ := he
    subst hb; subst hs2; subst hevs
    exact absurd h (evSave_not_mem_of_hasSave_false evs hpre nt u)
  | vdict d =>
    simp only [restoreDict] at he
    split at he
    · split at he
      · exact save_shape_fullBlob c s evs _ _ _ nt u b s2 evs2 hpre he h
      · exact save_shape_refreshOnly c s evs d nt u b s2 evs2 hpre he h
    · exact save_shape_refreshOnly c s evs d nt u b s2 evs2 hpre he h

/-- Structure of a whole restore call around a save event: a restore whose
trace persisted new tokens nt returned true, left the token it installed
right before the save in the final state, and emitted the install
immediately followed by the save as its last two events. -/
theorem save_shape_restore (c : Collab) (s : ApiState) (nt : RefreshReturn) (u : Option String)
    (b : Bool) (s2 : ApiState) (evs2 : List Ev)
    (he : try_restore_session c s = (b, s2, evs2))
    (h : Ev.evSave nt u ∈ evs2) :
    b = true ∧ ∃ na pre, s2.token = some na ∧
      evs2 = pre ++ [Ev.evSetToken na, Ev.evSave nt u] := by
  simp only [try_restore_session, restoreAttempt] at he
  rcases hl : c.load with e | found
  · rw [hl] at he
    simp only [Prod.mk.injEq] at he
    obtain ⟨hb, hs2, hevs⟩ := he
    subst hb; subst hs2; subst hevs
    simp at h
  · rw [hl] at he
    cases found with
    | falsy =>
      simp only [Prod.mk.injEq] at he
      obtain ⟨hb, hs2, hevs⟩ := he
      subst hb; subst hs2; subst hevs
      simp at h
    | badStr =>
      simp only [Prod.mk.injEq] at he
      obtain ⟨hb, hs2, hevs⟩ := he
      subst hb; subst hs2; subst hevs
      simp at h
    | jsonStr v =>
      exact save_shape_restoreDict c s [Ev.evLoad] v nt u b s2 evs2 (by decide) he h
    | val v =>
      exact save_shape_restoreDict c s [Ev.evLoad] v nt u b s2 evs2 (by decide) he h

/-- The single-attempt request helper always emits exactly one send. -/
theorem requestNoRetry_trace (be : Backend) (baseUrl : String) (st : ApiState) (k : Nat)
    (method path : String) (params0 : List (String × String)) (body : Option String) :
    (requestNoRetry be baseUrl st k method path params0 body).2.2.2
      = [Ev.evSend k (mkReq (pyUpper method) (baseUrl ++ "/" ++ lstripSlashes path)
          (setDefaultParam params0 "handle" st.handle) body st.token)] := by
  simp only [requestNoRetry]
  split <;> rfl

/-- C5. Persist-before-retry ordering: whenever the restore consulted by
an auth-failing request succeeds with a trace that persisted new tokens
nt, the trace of the whole call shows the install of the new access token
and the hand-off to save_tokens_full strictly before the retry send, and
the retry send carries the new token as bearer. The first conjunct covers
the inline retry, lines 230-238; the second covers the retry issued from
the HTTPError handler after an inline restore failure, lines 255-265. -/
theorem C5_persist_before_retry
    (be : Backend) (baseUrl : String) (st : ApiState) (k : Nat)
    (method path : String) (params0 : List (String × String)) (body : Option String)
    (nt : RefreshReturn) (u : Option String)
    (hAuth : isAuthStatus (be.respond k) = true) :
    (∀ st1 evsR,
      try_restore_session be.collab st = (true, st1, evsR) →
      Ev.evSave nt u ∈ evsR →
      ∃ na pre req2 rest, SendReq.bearer req2 = some na ∧
        (request be baseUrl st k method path params0 body).2.2.2
          = pre ++ Ev.evSetToken na :: Ev.evSave nt u :: Ev.evSend (k + 1) req2 :: rest) ∧
    (∀ st1 evsR1 st2 evsR2,
      try_restore_session be.collab st = (false, st1, evsR1) →
      try_restore_session be.collab st1 = (true, st2, evsR2) →
      Ev.evSave nt u ∈ evsR2 →
      ∃ na pre req2, SendReq.bearer req2 = some na ∧
        (request be baseUrl st k method path params0 body).2.2.2
          = pre ++ [Ev.evSetToken na, Ev.evSave nt u, Ev.evSend (k + 1) req2]) := by
  constructor
  · intro st1 evsR hres hmem
    obtain ⟨-, na, preR, htok, hdec⟩ :=
      save_shape_restore be.collab st nt u true st1 evsR hres hmem
    subst hdec
    have htr : ∃ tail,
        (request be baseUrl st k method path params0 body).2.2.2
          = Ev.evSend k (mkReq (pyUpper method) (baseUrl ++ "/" ++ lstripSlashes path)
              (setDefaultParam params0 "handle" st.handle) body st.token)
            :: ((preR ++ [Ev.evSetToken na, Ev.evSave nt u])
              ++ Ev.evSend (k + 1) (mkReq (retryMethod (pyUpper method))
                  (baseUrl ++ "/" ++ lstripSlashes path)
                  (setDefaultParam params0 "handle" st.handle) body st1.token) :: tail) := by
      by_cases hh : httpRaises (be.respond (k + 1)) = true
      · by_cases ha2 : isAuthStatus (be.respond (k + 1)) = true
        · rcases h2 : try_restore_session be.collab st1 with ⟨b2, st2x, evsR2x⟩
          cases b2
          · exact ⟨evsR2x, by simp [request, hres, hAuth, hh, ha2, h2]⟩
          · exact ⟨evsR2x ++ (requestNoRetry be baseUrl st2x (k + 2) method path
              (setDefaultParam params0 "handle" st.handle) body).2.2.2,
              by simp [request, hres, hAuth, hh, ha2, h2]⟩
        · exact ⟨[], by simp [request, hres, hAuth, hh, ha2]⟩
      · exact ⟨[], by simp [request, hres, hAuth, hh]⟩
    obtain ⟨tail, htr⟩ := htr
    refine ⟨na,
      Ev.evSend k (mkReq (pyUpper method) (baseUrl ++ "/" ++ lstripSlashes path)
        (setDefaultParam params0 "handle" st.handle) body st.token) :: preR,
      mkReq (retryMethod (pyUpper method)) (baseUrl ++ "/" ++ lstripSlashes path)
        (setDefaultParam params0 "handle" st.handle) body st1.token, tail, ?_, ?_⟩
    · simp [mkReq, htok]
    · rw [htr]
      simp
  · intro st1 evsR1 st2 evsR2 h1 h2 hmem
    obtain ⟨-, na, preR, htok, hdec⟩ :=
      save_shape_restore be.collab st1 nt u true st2 evsR2 h2 hmem
    subst hdec
    refine ⟨na,
      Ev.evSend k (mkReq (pyUpper method) (baseUrl ++ "/" ++ lstripSlashes path)
        (setDefaultParam params0 "handle" st.handle) body st.token) :: (evsR1 ++ preR),
      mkReq (pyUpper method) (baseUrl ++ "/" ++ lstripSlashes path)
        (setDefaultParam (setDefaultParam params0 "handle" st.handle) "handle" st2.handle)
        body st2.token, ?_, ?_⟩
    · simp [mkReq, htok]
    · simp [request, hAuth, h1, h2, requestNoRetry_trace]

/-- Witness for C5 at a concrete input, through the inline-retry conjunct. -/
theorem C5_persist_before_retry_witness :
    ∃ na pre req2 rest, SendReq.bearer req2 = some na ∧
      (request beC5w "https://api" s0 0 "GET" "/timeline" [] none).2.2.2
        = pre ++ Ev.evSetToken na
            :: Ev.evSave (RefreshReturn.rdict (some "newacc") (some "newref")) (some "alice")
            :: Ev.evSend (0 + 1) req2 :: rest :=
  (C5_persist_before_retry beC5w "https://api" s0 0 "GET" "/timeline" [] none
      (RefreshReturn.rdict (some "newacc") (some "newref")) (some "alice") (by decide)).1
    { token := some "newacc", handle := "alice" }
    [Ev.evLoad, Ev.evSetToken "acc", Ev.evValidate (some "acc") "alice", Ev.evRefresh "ref",
     Ev.evSetToken "newacc",
     Ev.evSave (RefreshReturn.rdict (some "newacc") (some "newref")) (some "alice")]
    (by decide) (by decide)

end Tuitter
